import Mathlib

/-!
# Cloud-Scanner: a shallow embedding of the scan engine

This file embeds, in Lean 4, the rule-evaluation and scan-orchestration
core of the Cloud-Scanner repository (a cloud security posture scanner):
the data model (`SecurityFinding`, `ScanSummary`, `ScanResult`), the four
provider evaluators (S3, EC2, IAM, RDS) with their check functions, the
security-group rule analysis (`isOpenToWorld`, `parseInboundRules`,
`hasPortOpenToWorld`), the orchestrator (`runFullScan`,
`calculateSummary`) and the DynamoDB-backed result store
(`prepareForStorage`, `saveScanResult`, `getScanResult`,
`getLatestScanResult`).

Dates are modelled as milliseconds since the epoch (`Nat`); the
platform's ISO-8601 millisecond serialization (`Date.toISOString`) is
modelled by `isoString`, a canonical fixed-width decimal encoding that
shares the properties the store relies on: it is injective on the
representable range and its lexicographic order agrees with chronological
order there.  Provider I/O outcomes are passed to the evaluators as
`Except` values; the orchestrator's clock reads are passed explicitly.
-/

namespace CloudScanner

/-- Severity levels for security findings (src/backend/src/types/index.ts). -/
inductive Severity
  | LOW
  | MEDIUM
  | HIGH
  | CRITICAL
deriving DecidableEq, Repr

/-- Status of each security check (src/backend/src/types/index.ts). -/
inductive CheckStatus
  | PASS
  | FAIL
  | ERROR
deriving DecidableEq, Repr

/-- AWS resource types scanned (src/backend/src/types/index.ts). -/
inductive ResourceType
  | S3
  | EC2
  | IAM
  | RDS
  | SECURITY_GROUP
deriving DecidableEq, Repr

/-- Standardized security finding (src/backend/src/types/index.ts).
Dates are milliseconds since the epoch. -/
structure SecurityFinding where
  resourceType : ResourceType
  resourceId : String
  checkName : String
  status : CheckStatus
  severity : Severity
  message : String
  timestamp : Option Nat := none
  region : Option String := none
deriving DecidableEq, Repr

/-- Scan summary for the dashboard overview (src/backend/src/types/index.ts). -/
structure ScanSummary where
  totalResources : Nat
  passed : Nat
  failed : Nat
  errors : Nat
  highSeverity : Nat
  criticalSeverity : Nat
  scanTime : Nat
deriving DecidableEq, Repr

/-- Scan lifecycle status (src/backend/src/types/index.ts). -/
inductive ScanStatus
  | running
  | completed
  | failed
deriving DecidableEq, Repr

/-- Complete scan result with findings and summary
(src/backend/src/types/index.ts; the implementation uses the field name
`scanId`). -/
structure ScanResult where
  scanId : String
  summary : ScanSummary
  findings : List SecurityFinding
  startTime : Nat
  endTime : Option Nat := none
  status : ScanStatus
deriving DecidableEq, Repr

/-- Model of `calculateSummary` from the orchestrator: counts findings by status
and severity.  The `now` argument models the `new Date()` read taken at
summary-computation time. -/
def calculateSummary (findings : List SecurityFinding) (now : Nat) : ScanSummary :=
  { totalResources := findings.length
    passed := (findings.filter (fun f => f.status = CheckStatus.PASS)).length
    failed := (findings.filter (fun f => f.status = CheckStatus.FAIL)).length
    errors := (findings.filter (fun f => f.status = CheckStatus.ERROR)).length
    highSeverity := (findings.filter
      (fun f => f.status = CheckStatus.FAIL ∧ f.severity = Severity.HIGH)).length
    criticalSeverity := (findings.filter
      (fun f => f.status = CheckStatus.FAIL ∧ f.severity = Severity.CRITICAL)).length
    scanTime := now }

/-! ## EC2 client module (src/backend/src/aws/ec2.ts) -/

/-- EC2 instance information with security details (aws/ec2.ts). -/
structure EC2InstanceInfo where
  instanceId : String
  name : String
  state : String
  instanceType : String
  publicIp : Option String := none
  privateIp : Option String := none
  hasPublicIp : Bool
  securityGroups : List String
  region : Option String := none
deriving DecidableEq, Repr

/-- Individual security group rule (aws/ec2.ts).  Ports are JS numbers;
they are modelled as integers. -/
structure SecurityGroupRule where
  protocol : String
  fromPort : Option Int := none
  toPort : Option Int := none
  source : String
  isOpenToWorld : Bool
deriving DecidableEq, Repr

/-- Security group information with rule analysis (aws/ec2.ts). -/
structure SecurityGroupInfo where
  groupId : String
  groupName : String
  description : String
  vpcId : Option String := none
  inboundRules : List SecurityGroupRule
  hasOpenSSH : Bool
  hasOpenRDP : Bool
  hasOpenToWorld : Bool
deriving DecidableEq, Repr

/-- One entry of the AWS SDK `IpPermission` input as the parser consumes
it: protocol and port bounds are optional, and each CIDR entry of
`IpRanges` / `Ipv6Ranges` is an optional string (the source reads
`ipRange.CidrIp || ""`). -/
structure IpPermission where
  ipProtocol : Option String := none
  fromPort : Option Int := none
  toPort : Option Int := none
  ipRanges : List (Option String) := []
  ipv6Ranges : List (Option String) := []
deriving DecidableEq, Repr

/-- Model of `isOpenToWorld` (aws/ec2.ts): a CIDR block is open to the world iff
it is exactly `0.0.0.0/0` or `::/0`. -/
def isOpenToWorld (cidr : String) : Bool :=
  cidr == "0.0.0.0/0" || cidr == "::/0"

/-- The rule record pushed by `parseInboundRules` for one CIDR entry of a
permission; the IPv4 and IPv6 loop bodies build the same shape. -/
def ruleOfCidr (permission : IpPermission) (cidr : Option String) : SecurityGroupRule :=
  { protocol := permission.ipProtocol.getD "all"
    fromPort := permission.fromPort
    toPort := permission.toPort
    source := cidr.getD ""
    isOpenToWorld := CloudScanner.isOpenToWorld (cidr.getD "") }

/-- Model of `parseInboundRules` (aws/ec2.ts): for each permission, emit one rule
per IPv4 range and one per IPv6 range. -/
def parseInboundRules : List IpPermission → List SecurityGroupRule
  | [] => []
  | permission :: rest =>
      permission.ipRanges.map (ruleOfCidr permission)
        ++ permission.ipv6Ranges.map (ruleOfCidr permission)
        ++ parseInboundRules rest

/-- Model of `hasPortOpenToWorld` (aws/ec2.ts): some rule is open to the world
and either has protocol `-1` (all traffic) or covers the port, with
missing bounds defaulting to 0 and 65535. -/
def hasPortOpenToWorld (rules : List SecurityGroupRule) (port : Int) : Bool :=
  rules.any fun rule =>
    if !rule.isOpenToWorld then false
    else if rule.protocol == "-1" then true
    else
      let fromPort := rule.fromPort.getD 0
      let toPort := rule.toPort.getD 65535
      decide (fromPort ≤ port ∧ port ≤ toPort)

/-! ## S3 client module (src/backend/src/aws/s3.ts) -/

/-- Public-access-block state stored on a normalized bucket record. -/
structure PublicAccessInfo where
  blockPublicAcls : Bool
  blockPublicPolicy : Bool
  ignorePublicAcls : Bool
  restrictPublicBuckets : Bool
  isFullyBlocked : Bool
deriving DecidableEq, Repr

/-- The provider-native `PublicAccessBlockConfiguration`: every sub-flag
is optional (the source reads `config?.BlockPublicAcls || false`). -/
structure PABConfiguration where
  blockPublicAcls : Option Bool := none
  blockPublicPolicy : Option Bool := none
  ignorePublicAcls : Option Bool := none
  restrictPublicBuckets : Option Bool := none
deriving DecidableEq, Repr

/-- Model of `getPublicAccessBlock` (aws/s3.ts) as a function of the provider
call's outcome: on success the four flags default to `false` when absent
and `isFullyBlocked` is their conjunction; a
`NoSuchPublicAccessBlockConfiguration` error and any other error both
degrade to the all-false record. -/
def getPublicAccessBlock
    (response : Except String (Option PABConfiguration)) : PublicAccessInfo :=
  match response with
  | .ok config =>
      let blockPublicAcls := (config.bind PABConfiguration.blockPublicAcls).getD false
      let blockPublicPolicy := (config.bind PABConfiguration.blockPublicPolicy).getD false
      let ignorePublicAcls := (config.bind PABConfiguration.ignorePublicAcls).getD false
      let restrictPublicBuckets := (config.bind PABConfiguration.restrictPublicBuckets).getD false
      { blockPublicAcls, blockPublicPolicy, ignorePublicAcls, restrictPublicBuckets
        isFullyBlocked := blockPublicAcls && blockPublicPolicy
          && ignorePublicAcls && restrictPublicBuckets }
  | .error name =>
      if name == "NoSuchPublicAccessBlockConfiguration" then
        { blockPublicAcls := false, blockPublicPolicy := false, ignorePublicAcls := false
          restrictPublicBuckets := false, isFullyBlocked := false }
      else
        { blockPublicAcls := false, blockPublicPolicy := false, ignorePublicAcls := false
          restrictPublicBuckets := false, isFullyBlocked := false }

/-- Bucket encryption state (aws/s3.ts). -/
structure EncryptionInfo where
  enabled : Bool
  type : Option String := none
deriving DecidableEq, Repr

/-- Bucket versioning state (aws/s3.ts). -/
structure VersioningInfo where
  enabled : Bool
  mfaDelete : Bool
deriving DecidableEq, Repr

/-- S3 bucket information with security details (aws/s3.ts). -/
structure S3BucketInfo where
  name : String
  region : String
  creationDate : Option Nat := none
  publicAccess : PublicAccessInfo
  encryption : EncryptionInfo
  versioning : VersioningInfo
deriving DecidableEq, Repr

/-! ## IAM client module (src/backend/src/aws/iam.ts) -/

/-- IAM user information with security details (aws/iam.ts). -/
structure IAMUserInfo where
  userName : String
  userId : String
  arn : String
  createDate : Option Nat := none
  hasMFA : Bool
  hasConsoleAccess : Bool
  attachedPolicies : List String
  hasAdminAccess : Bool
  passwordLastUsed : Option Nat := none
deriving DecidableEq, Repr

/-- Account-level IAM summary (aws/iam.ts). -/
structure IAMAccountSummary where
  users : Nat
  groups : Nat
  roles : Nat
  policies : Nat
  mfaDevices : Nat
  accountMFAEnabled : Bool
deriving DecidableEq, Repr

/-! ## RDS client module (src/backend/src/aws/rds.ts) -/

/-- RDS instance information with security details (aws/rds.ts). -/
structure RDSInstanceInfo where
  dbInstanceId : String
  dbInstanceClass : String
  engine : String
  engineVersion : String
  status : String
  isPubliclyAccessible : Bool
  isEncrypted : Bool
  hasBackupEnabled : Bool
  backupRetentionPeriod : Nat
  multiAZ : Bool
  vpcSecurityGroups : List String
  endpoint : Option String := none
  port : Option Int := none
deriving DecidableEq, Repr

/-! ## S3 scanner (src/backend/src/scanners/s3Scanner.ts) -/

namespace S3Scanner

/-- Check: Public Access Block. -/
def checkPublicAccess (bucket : S3BucketInfo) : SecurityFinding :=
  let isBlocked := bucket.publicAccess.isFullyBlocked
  { resourceType := .S3
    resourceId := bucket.name
    checkName := "Public Access Block"
    status := if isBlocked then .PASS else .FAIL
    severity := if isBlocked then .LOW else .HIGH
    message := if isBlocked then
        "Public access is fully blocked for this bucket"
      else
        "Public access is NOT fully blocked. This bucket may be publicly accessible"
    region := some bucket.region }

/-- Check: Server-Side Encryption. -/
def checkEncryption (bucket : S3BucketInfo) : SecurityFinding :=
  let isEncrypted := bucket.encryption.enabled
  let encryptionType := bucket.encryption.type.getD "None"
  { resourceType := .S3
    resourceId := bucket.name
    checkName := "Server-Side Encryption"
    status := if isEncrypted then .PASS else .FAIL
    severity := if isEncrypted then .LOW else .MEDIUM
    message := if isEncrypted then
        "Encryption is enabled using " ++ encryptionType
      else
        "Server-side encryption is NOT enabled. Data at rest is not protected"
    region := some bucket.region }

/-- Check: Versioning. -/
def checkVersioning (bucket : S3BucketInfo) : SecurityFinding :=
  let isEnabled := bucket.versioning.enabled
  { resourceType := .S3
    resourceId := bucket.name
    checkName := "Versioning"
    status := if isEnabled then .PASS else .FAIL
    severity := if isEnabled then .LOW else .LOW
    message := if isEnabled then
        "Versioning is enabled - objects can be recovered if deleted"
      else
        "Versioning is NOT enabled. Consider enabling for data protection"
    region := some bucket.region }

end S3Scanner

/-- Model of `scanS3Buckets` (scanners/s3Scanner.ts) as a function of the
collector outcome: on success, the three checks per bucket in order; if
collection raised, exactly one synthetic ERROR finding. -/
def scanS3Buckets (collected : Except String (List S3BucketInfo)) : List SecurityFinding :=
  match collected with
  | .ok buckets =>
      buckets.flatMap fun bucket =>
        [S3Scanner.checkPublicAccess bucket,
         S3Scanner.checkEncryption bucket,
         S3Scanner.checkVersioning bucket]
  | .error e =>
      [{ resourceType := .S3
         resourceId := "S3-SCANNER"
         checkName := "S3 Scan"
         status := .ERROR
         severity := .HIGH
         message := "Error scanning S3 buckets: " ++ e }]

/-! ## EC2 scanner (src/backend/src/scanners/ec2Scanner.ts) -/

namespace EC2Scanner

/-- Check: SSH Port Exposure (Port 22). -/
def checkSSHExposure (sg : SecurityGroupInfo) : SecurityFinding :=
  { resourceType := .SECURITY_GROUP
    resourceId := sg.groupName ++ " (" ++ sg.groupId ++ ")"
    checkName := "SSH Port Exposure (22)"
    status := if sg.hasOpenSSH then .FAIL else .PASS
    severity := if sg.hasOpenSSH then .HIGH else .LOW
    message := if sg.hasOpenSSH then
        "SSH port 22 is open to the world (0.0.0.0/0). Restrict to specific IPs"
      else
        "SSH port 22 is not exposed to the world" }

/-- Check: RDP Port Exposure (Port 3389). -/
def checkRDPExposure (sg : SecurityGroupInfo) : SecurityFinding :=
  { resourceType := .SECURITY_GROUP
    resourceId := sg.groupName ++ " (" ++ sg.groupId ++ ")"
    checkName := "RDP Port Exposure (3389)"
    status := if sg.hasOpenRDP then .FAIL else .PASS
    severity := if sg.hasOpenRDP then .HIGH else .LOW
    message := if sg.hasOpenRDP then
        "RDP port 3389 is open to the world (0.0.0.0/0). Restrict to specific IPs"
      else
        "RDP port 3389 is not exposed to the world" }

/-- Check: Open to World. -/
def checkOpenToWorld (sg : SecurityGroupInfo) : SecurityFinding :=
  let openRules := sg.inboundRules.filter (fun r => r.isOpenToWorld)
  { resourceType := .SECURITY_GROUP
    resourceId := sg.groupName ++ " (" ++ sg.groupId ++ ")"
    checkName := "Unrestricted Inbound Access"
    status := if sg.hasOpenToWorld then .FAIL else .PASS
    severity := if sg.hasOpenToWorld then .MEDIUM else .LOW
    message := if sg.hasOpenToWorld then
        toString openRules.length ++ " inbound rule(s) allow traffic from 0.0.0.0/0"
      else
        "No inbound rules allow unrestricted access" }

/-- Check: Public IP Exposure. -/
def checkPublicIPExposure (inst : EC2InstanceInfo) : SecurityFinding :=
  { resourceType := .EC2
    resourceId := inst.name ++ " (" ++ inst.instanceId ++ ")"
    checkName := "Public IP Exposure"
    status := if inst.hasPublicIp then .FAIL else .PASS
    severity := if inst.hasPublicIp then .MEDIUM else .LOW
    message := if inst.hasPublicIp then
        "Instance has a public IP: " ++ inst.publicIp.getD "undefined"
          ++ ". Ensure this is intentional"
      else
        "Instance does not have a public IP" }

end EC2Scanner

/-- Model of `scanEC2` (scanners/ec2Scanner.ts): three checks per security group,
then the public-IP check for instances in state `running` or `stopped`;
if collection raised, exactly one synthetic ERROR finding. -/
def scanEC2
    (collected : Except String (List EC2InstanceInfo × List SecurityGroupInfo)) :
    List SecurityFinding :=
  match collected with
  | .ok (instances, securityGroups) =>
      (securityGroups.flatMap fun sg =>
        [EC2Scanner.checkSSHExposure sg,
         EC2Scanner.checkRDPExposure sg,
         EC2Scanner.checkOpenToWorld sg])
      ++ (instances.filter
            (fun inst => inst.state == "running" || inst.state == "stopped")).map
          EC2Scanner.checkPublicIPExposure
  | .error e =>
      [{ resourceType := .EC2
         resourceId := "EC2-SCANNER"
         checkName := "EC2 Scan"
         status := .ERROR
         severity := .HIGH
         message := "Error scanning EC2: " ++ e }]

/-! ## IAM scanner (src/backend/src/scanners/iamScanner.ts) -/

namespace IAMScanner

/-- Check: MFA Enabled — only required for users with console access. -/
def checkMFAEnabled (user : IAMUserInfo) : SecurityFinding :=
  if !user.hasConsoleAccess then
    { resourceType := .IAM
      resourceId := user.userName
      checkName := "MFA Enabled"
      status := .PASS
      severity := .LOW
      message := "User does not have console access, MFA not required" }
  else
    { resourceType := .IAM
      resourceId := user.userName
      checkName := "MFA Enabled"
      status := if user.hasMFA then .PASS else .FAIL
      severity := if user.hasMFA then .LOW else .HIGH
      message := if user.hasMFA then
          "MFA is enabled for this user"
        else
          "MFA is NOT enabled. User with console access should have MFA" }

/-- Check: Admin Access. -/
def checkAdminAccess (user : IAMUserInfo) : SecurityFinding :=
  { resourceType := .IAM
    resourceId := user.userName
    checkName := "Admin Access Check"
    status := if user.hasAdminAccess then .FAIL else .PASS
    severity := if user.hasAdminAccess then .HIGH else .LOW
    message := if user.hasAdminAccess then
        "User has admin-level permissions. Ensure this is necessary"
      else
        "User does not have admin-level permissions" }

/-- Check: Root Account MFA. -/
def checkRootMFA (accountMFAEnabled : Bool) : SecurityFinding :=
  { resourceType := .IAM
    resourceId := "ROOT-ACCOUNT"
    checkName := "Root Account MFA"
    status := if accountMFAEnabled then .PASS else .FAIL
    severity := if accountMFAEnabled then .LOW else .CRITICAL
    message := if accountMFAEnabled then
        "Root account has MFA enabled"
      else
        "Root account does NOT have MFA enabled. This is a critical security risk" }

end IAMScanner

/-- Model of `scanIAM` (scanners/iamScanner.ts): the root-MFA check first, then
two checks per user; if collection raised, exactly one synthetic ERROR
finding with the IAM sentinel id. -/
def scanIAM
    (collected : Except String (List IAMUserInfo × IAMAccountSummary)) :
    List SecurityFinding :=
  match collected with
  | .ok (users, accountSummary) =>
      IAMScanner.checkRootMFA accountSummary.accountMFAEnabled
        :: users.flatMap fun user =>
            [IAMScanner.checkMFAEnabled user, IAMScanner.checkAdminAccess user]
  | .error e =>
      [{ resourceType := .IAM
         resourceId := "IAM-SCANNER"
         checkName := "IAM Scan"
         status := .ERROR
         severity := .HIGH
         message := "Error scanning IAM: " ++ e }]

/-! ## RDS scanner (src/backend/src/scanners/rdsScanner.ts) -/

namespace RDSScanner

/-- Check: Public Accessibility. -/
def checkPublicAccessibility (db : RDSInstanceInfo) : SecurityFinding :=
  { resourceType := .RDS
    resourceId := db.dbInstanceId
    checkName := "Public Accessibility"
    status := if db.isPubliclyAccessible then .FAIL else .PASS
    severity := if db.isPubliclyAccessible then .HIGH else .LOW
    message := if db.isPubliclyAccessible then
        "RDS instance is publicly accessible. This exposes your database to the internet"
      else
        "RDS instance is not publicly accessible" }

/-- Check: Encryption at Rest. -/
def checkEncryption (db : RDSInstanceInfo) : SecurityFinding :=
  { resourceType := .RDS
    resourceId := db.dbInstanceId
    checkName := "Encryption at Rest"
    status := if db.isEncrypted then .PASS else .FAIL
    severity := if db.isEncrypted then .LOW else .MEDIUM
    message := if db.isEncrypted then
        "Storage encryption is enabled"
      else
        "Storage encryption is NOT enabled. Data at rest is not protected" }

/-- Check: Backup Enabled. -/
def checkBackupEnabled (db : RDSInstanceInfo) : SecurityFinding :=
  { resourceType := .RDS
    resourceId := db.dbInstanceId
    checkName := "Automated Backups"
    status := if db.hasBackupEnabled then .PASS else .FAIL
    severity := if db.hasBackupEnabled then .LOW else .MEDIUM
    message := if db.hasBackupEnabled then
        "Automated backups enabled with " ++ toString db.backupRetentionPeriod
          ++ " day retention"
      else
        "Automated backups are NOT enabled. Enable for disaster recovery" }

/-- Check: Multi-AZ Deployment. -/
def checkMultiAZ (db : RDSInstanceInfo) : SecurityFinding :=
  { resourceType := .RDS
    resourceId := db.dbInstanceId
    checkName := "Multi-AZ Deployment"
    status := if db.multiAZ then .PASS else .FAIL
    severity := if db.multiAZ then .LOW else .LOW
    message := if db.multiAZ then
        "Multi-AZ deployment is enabled for high availability"
      else
        "Multi-AZ deployment is NOT enabled. Consider for production workloads" }

end RDSScanner

/-- Model of `scanRDS` (scanners/rdsScanner.ts): four checks per database
instance; if collection raised, exactly one synthetic ERROR finding. -/
def scanRDS (collected : Except String (List RDSInstanceInfo)) : List SecurityFinding :=
  match collected with
  | .ok instances =>
      instances.flatMap fun db =>
        [RDSScanner.checkPublicAccessibility db,
         RDSScanner.checkEncryption db,
         RDSScanner.checkBackupEnabled db,
         RDSScanner.checkMultiAZ db]
  | .error e =>
      [{ resourceType := .RDS
         resourceId := "RDS-SCANNER"
         checkName := "RDS Scan"
         status := .ERROR
         severity := .HIGH
         message := "Error scanning RDS: " ++ e }]

/-! ## Date serialization

The store serializes every date field with the platform's
`Date.toISOString()`, a canonical, fixed-width, millisecond-precision
string encoding whose lexicographic order agrees with chronological
order.  `isoString` models it as a 15-digit zero-padded decimal
millisecond count (the representable range, `ms < 10^15`, extends far
beyond the range `toISOString` itself accepts); `isoDecode` is its
inverse. -/

/-- Width of the canonical date encoding, in digits. -/
def isoWidth : Nat := 15

/-- The decimal digit character for a value below ten. -/
def digitChar : Nat → Char
  | 0 => '0'
  | 1 => '1'
  | 2 => '2'
  | 3 => '3'
  | 4 => '4'
  | 5 => '5'
  | 6 => '6'
  | 7 => '7'
  | 8 => '8'
  | 9 => '9'
  | _ => '*'

/-- Zero-padded decimal digits of `n % 10^w`, most significant first. -/
def padDigits : Nat → Nat → List Char
  | 0, _ => []
  | w + 1, n => digitChar (n / 10 ^ w) :: padDigits w (n % 10 ^ w)

/-- The canonical date serialization (model of `Date.toISOString`). -/
def isoString (ms : Nat) : String :=
  String.mk (padDigits isoWidth ms)

/-- Numeric value of a decimal digit character. -/
def charVal (c : Char) : Nat := c.toNat - 48

/-- Accumulating decimal decoder over a digit list. -/
def decodeDigits (acc : Nat) : List Char → Nat
  | [] => acc
  | c :: rest => decodeDigits (acc * 10 + charVal c) rest

/-- Inverse of the canonical date serialization. -/
def isoDecode (s : String) : Option Nat :=
  if s.data ≠ [] ∧ s.data.all Char.isDigit then some (decodeDigits 0 s.data) else none

/-! ## Result store (src/backend/src/storage/dynamodb.ts) -/

/-- A finding as stored: the date field is an ISO string. -/
structure StoredFinding where
  resourceType : ResourceType
  resourceId : String
  checkName : String
  status : CheckStatus
  severity : Severity
  message : String
  timestamp : Option String := none
  region : Option String := none
deriving DecidableEq, Repr

/-- A summary as stored: `scanTime` is an ISO string. -/
structure StoredSummary where
  totalResources : Nat
  passed : Nat
  failed : Nat
  errors : Nat
  highSeverity : Nat
  criticalSeverity : Nat
  scanTime : String
deriving DecidableEq, Repr

/-- A scan result as stored in the table: date fields serialized, plus
the GSI attributes `recordType`/`createdAt` and the constant sort key
`resourceId = "METADATA"` added by `prepareForStorage`. -/
structure StoredScan where
  scanId : String
  summary : StoredSummary
  findings : List StoredFinding
  startTime : String
  endTime : Option String := none
  status : ScanStatus
  recordType : String
  createdAt : String
  resourceId : String
deriving DecidableEq, Repr

/-- The per-finding date serialization applied by `prepareForStorage`. -/
def storedFindingOf (f : SecurityFinding) : StoredFinding :=
  { resourceType := f.resourceType
    resourceId := f.resourceId
    checkName := f.checkName
    status := f.status
    severity := f.severity
    message := f.message
    timestamp := f.timestamp.map isoString
    region := f.region }

/-- Model of `prepareForStorage` (storage/dynamodb.ts): serialize every date
field, then add the GSI keys (`recordType = "SCAN"`,
`createdAt = startTime`) and the constant sort key
`resourceId = "METADATA"`. -/
def prepareForStorage (scanResult : ScanResult) : StoredScan :=
  { scanId := scanResult.scanId
    summary :=
      { totalResources := scanResult.summary.totalResources
        passed := scanResult.summary.passed
        failed := scanResult.summary.failed
        errors := scanResult.summary.errors
        highSeverity := scanResult.summary.highSeverity
        criticalSeverity := scanResult.summary.criticalSeverity
        scanTime := isoString scanResult.summary.scanTime }
    findings := scanResult.findings.map storedFindingOf
    startTime := isoString scanResult.startTime
    endTime := scanResult.endTime.map isoString
    status := scanResult.status
    recordType := "SCAN"
    createdAt := isoString scanResult.startTime
    resourceId := "METADATA" }

/-- The durable table: a list of items in insertion order. -/
abbrev Store : Type := List StoredScan

/-- DynamoDB `PutItem`: overwrite any item with the same primary key
(partition key `scanId`, sort key `resourceId`), append otherwise. -/
def putItem (store : Store) (item : StoredScan) : Store :=
  (List.filter
      (fun it => !(it.scanId == item.scanId && it.resourceId == item.resourceId)) store)
    ++ [item]

/-- Model of `saveScanResult` (storage/dynamodb.ts): best-effort persistence.  A
persistence failure (modelled by the flag) is caught and logged inside
the function; the store is simply left unchanged and nothing is raised. -/
def saveScanResult (store : Store) (persistenceFails : Bool) (scanResult : ScanResult) :
    Store :=
  if persistenceFails then store else putItem store (prepareForStorage scanResult)

/-- Model of `getScanResult` (storage/dynamodb.ts): `GetItem` by the key
`(scanId, resourceId = "METADATA")`.  The item is returned as stored
(the source casts the unmarshalled item without converting dates
back). -/
def getScanResult (store : Store) (scanId : String) : Option StoredScan :=
  List.find? (fun it => it.scanId == scanId && it.resourceId == "METADATA") store

/-- Boolean lexicographic order on character lists (how DynamoDB orders
string sort keys). -/
def lexLt : List Char → List Char → Bool
  | [], [] => false
  | [], _ :: _ => true
  | _ :: _, [] => false
  | a :: as, b :: bs => if a < b then true else if b < a then false else lexLt as bs

/-- One step of the descending-`createdAt` query: keep the candidate
with the lexicographically greatest `createdAt`, preferring the earlier
item on ties. -/
def latestStep (acc : Option StoredScan) (item : StoredScan) : Option StoredScan :=
  match acc with
  | none => some item
  | some best =>
      if lexLt best.createdAt.data item.createdAt.data then some item else some best

/-- Model of `getLatestScanResult` (storage/dynamodb.ts): query the
`ScanHistoryIndex` GSI for items with `recordType = "SCAN"`, sorted by
`createdAt` descending, limit 1. -/
def getLatestScanResult (store : Store) : Option StoredScan :=
  (List.filter (fun it => it.recordType == "SCAN") store).foldl latestStep none

/-- Deserialize one optional date field. -/
def decodeOptDate : Option String → Option (Option Nat)
  | none => some none
  | some s => (isoDecode s).map some

/-- Deserialize a stored finding's date field. -/
def decodeStoredFinding (f : StoredFinding) : Option SecurityFinding :=
  (decodeOptDate f.timestamp).map fun t =>
    { resourceType := f.resourceType
      resourceId := f.resourceId
      checkName := f.checkName
      status := f.status
      severity := f.severity
      message := f.message
      timestamp := t
      region := f.region }

/-- Deserialize every date field of a stored item back to milliseconds,
inverting `prepareForStorage` (and dropping the storage-only key
attributes it added). -/
def decodeStoredScan (it : StoredScan) : Option ScanResult :=
  (isoDecode it.startTime).bind fun st =>
  (decodeOptDate it.endTime).bind fun et =>
  (isoDecode it.summary.scanTime).bind fun sct =>
  (it.findings.mapM decodeStoredFinding).map fun fs =>
    { scanId := it.scanId
      summary :=
        { totalResources := it.summary.totalResources
          passed := it.summary.passed
          failed := it.summary.failed
          errors := it.summary.errors
          highSeverity := it.summary.highSeverity
          criticalSeverity := it.summary.criticalSeverity
          scanTime := sct }
      findings := fs
      startTime := st
      endTime := et
      status := it.status }

/-! ## Scan orchestrator (src/backend/src/services/scanService.ts) -/

/-- The environment one `runFullScan` execution observes: the outcome of
each provider's collection, whether the aggregation phase itself raises
(`aggError`), and whether durable persistence fails. -/
structure ScanEnv where
  s3In : Except String (List S3BucketInfo)
  ec2In : Except String (List EC2InstanceInfo × List SecurityGroupInfo)
  iamIn : Except String (List IAMUserInfo × IAMAccountSummary)
  rdsIn : Except String (List RDSInstanceInfo)
  aggError : Option String := none
  persistenceFails : Bool := false

/-- The successive clock reads of one execution: scan start, the uniform
finding timestamp taken when aggregation completes, the
summary-computation time, and the end time. -/
structure ScanTimes where
  startT : Nat
  stampT : Nat
  scanT : Nat
  endT : Nat

/-- The concatenation of all four evaluators' findings, in the
orchestrator's fan-in order (S3, EC2, IAM, RDS). -/
def allFindings (env : ScanEnv) : List SecurityFinding :=
  scanS3Buckets env.s3In ++ scanEC2 env.ec2In ++ scanIAM env.iamIn ++ scanRDS env.rdsIn

/-- What one `runFullScan` execution produces: the returned result, the
store after the (single) persistence call, and how many times
`saveScanResult` was invoked. -/
structure RunOutcome where
  result : ScanResult
  store : Store
  saveCalls : Nat
deriving Repr

/-- Model of `runFullScan` (services/scanService.ts): build the initial RUNNING
result; inside the try-block, stamp all aggregated findings with one
uniform timestamp, compute the summary, set `endTime` and mark
COMPLETED; if aggregation raises, the catch-block marks the result
FAILED with `endTime` set (findings untouched); in both cases
`saveScanResult` is then called exactly once and the in-memory result is
returned.  The function is total: no exception escapes. -/
def runFullScan (env : ScanEnv) (times : ScanTimes) (scanId : String) (store : Store) :
    RunOutcome :=
  let initial : ScanResult :=
    { scanId := scanId
      summary :=
        { totalResources := 0, passed := 0, failed := 0, errors := 0
          highSeverity := 0, criticalSeverity := 0, scanTime := times.startT }
      findings := []
      startTime := times.startT
      endTime := none
      status := .running }
  let finalResult : ScanResult :=
    match env.aggError with
    | some _ => { initial with status := .failed, endTime := some times.endT }
    | none =>
        let stamped := (allFindings env).map fun f => { f with timestamp := some times.stampT }
        { initial with
            findings := stamped
            summary := calculateSummary stamped times.scanT
            endTime := some times.endT
            status := .completed }
  { result := finalResult
    store := saveScanResult store env.persistenceFails finalResult
    saveCalls := 1 }

end CloudScanner

namespace CloudScanner

theorem sum_status_filters (findings : List SecurityFinding) :
    (findings.filter (fun f => f.status = CheckStatus.PASS)).length
      + (findings.filter (fun f => f.status = CheckStatus.FAIL)).length
      + (findings.filter (fun f => f.status = CheckStatus.ERROR)).length
      = findings.length := by
  induction findings with
  | nil => simp
  | cons f rest ih =>
    cases h : f.status <;>
      simp [List.filter_cons, h, CheckStatus] <;> omega

/-- C1: for every list of findings, the ScanSummary computed by
`calculateSummary` satisfies `passed + failed + errors = totalResources`,
where `totalResources` is the number of findings and each counter counts
the corresponding status (and `highSeverity`/`criticalSeverity` count
FAIL findings of HIGH/CRITICAL severity). -/
theorem claim_C1_summary_counts (findings : List SecurityFinding) (now : Nat) :
    (calculateSummary findings now).passed
      + (calculateSummary findings now).failed
      + (calculateSummary findings now).errors
      = (calculateSummary findings now).totalResources
    ∧ (calculateSummary findings now).totalResources = findings.length
    ∧ (calculateSummary findings now).passed
        = (findings.filter (fun f => f.status = CheckStatus.PASS)).length
    ∧ (calculateSummary findings now).failed
        = (findings.filter (fun f => f.status = CheckStatus.FAIL)).length
    ∧ (calculateSummary findings now).errors
        = (findings.filter (fun f => f.status = CheckStatus.ERROR)).length
    ∧ (calculateSummary findings now).highSeverity
        = (findings.filter
            (fun f => f.status = CheckStatus.FAIL ∧ f.severity = Severity.HIGH)).length
    ∧ (calculateSummary findings now).criticalSeverity
        = (findings.filter
            (fun f => f.status = CheckStatus.FAIL ∧ f.severity = Severity.CRITICAL)).length := by
  refine ⟨?_, rfl, rfl, rfl, rfl, rfl, rfl⟩
  simpa [calculateSummary] using sum_status_filters findings

theorem mem_parseInboundRules_isOpenToWorld
    (permissions : List IpPermission) (rule : SecurityGroupRule)
    (h : rule ∈ parseInboundRules permissions) :
    rule.isOpenToWorld = CloudScanner.isOpenToWorld rule.source := by
  induction permissions with
  | nil => simp [parseInboundRules] at h
  | cons p rest ih =>
    simp only [parseInboundRules, List.mem_append, List.mem_map] at h
    rcases h with (⟨c, _, rfl⟩ | ⟨c, _, rfl⟩) | h
    · rfl
    · rfl
    · exact ih h

theorem isOpenToWorld_eq_true_iff (cidr : String) :
    CloudScanner.isOpenToWorld cidr = true ↔ (cidr = "0.0.0.0/0" ∨ cidr = "::/0") := by
  simp [CloudScanner.isOpenToWorld]

/-- C4: every rule produced by `parseInboundRules` is classified
open-to-world iff its source CIDR is exactly `0.0.0.0/0` or `::/0`; in
particular a rule with source `10.0.0.0/8` is never open-to-world,
regardless of its ports or protocol. -/
theorem claim_C4_open_to_world_iff
    (permissions : List IpPermission) (rule : SecurityGroupRule)
    (h : rule ∈ parseInboundRules permissions) :
    (rule.isOpenToWorld = true ↔ (rule.source = "0.0.0.0/0" ∨ rule.source = "::/0"))
    ∧ (rule.source = "10.0.0.0/8" → rule.isOpenToWorld = false) := by
  have hfield := mem_parseInboundRules_isOpenToWorld permissions rule h
  constructor
  · rw [hfield]; exact isOpenToWorld_eq_true_iff rule.source
  · intro hs
    rw [hfield, hs]
    decide

def privatePermission : IpPermission :=
  { ipProtocol := some "tcp", fromPort := some 22, toPort := some 22
    ipRanges := [some "10.0.0.0/8"], ipv6Ranges := [] }

/-- Witness for C4 at a concrete rule parsed from a permission whose
source is `10.0.0.0/8`. -/
theorem claim_C4_witness :
    ((ruleOfCidr privatePermission (some "10.0.0.0/8")).isOpenToWorld = true
        ↔ ((ruleOfCidr privatePermission (some "10.0.0.0/8")).source = "0.0.0.0/0"
            ∨ (ruleOfCidr privatePermission (some "10.0.0.0/8")).source = "::/0"))
    ∧ ((ruleOfCidr privatePermission (some "10.0.0.0/8")).source = "10.0.0.0/8"
        → (ruleOfCidr privatePermission (some "10.0.0.0/8")).isOpenToWorld = false) :=
  claim_C4_open_to_world_iff [privatePermission] _
    (by simp [parseInboundRules, privatePermission])

/-- C5: a port is reported open to the world iff some open-to-world rule
either has protocol `-1` (all traffic, hence open on every port,
including 22 and 3389) or satisfies `fromPort ≤ port ≤ toPort`, with a
missing `fromPort` defaulting to 0 and a missing `toPort` to 65535. -/
theorem claim_C5_port_open_iff (rules : List SecurityGroupRule) (port : Int) :
    hasPortOpenToWorld rules port = true
      ↔ ∃ rule ∈ rules, rule.isOpenToWorld = true
          ∧ (rule.protocol = "-1"
             ∨ (rule.fromPort.getD 0 ≤ port ∧ port ≤ rule.toPort.getD 65535)) := by
  unfold hasPortOpenToWorld
  rw [List.any_eq_true]
  constructor
  · rintro ⟨r, hr, hcond⟩
    refine ⟨r, hr, ?_⟩
    by_cases ho : r.isOpenToWorld
    · refine ⟨ho, ?_⟩
      by_cases hp : r.protocol = "-1"
      · exact Or.inl hp
      · right
        simp [ho, hp] at hcond
        exact hcond
    · simp [ho] at hcond
  · rintro ⟨r, hr, ho, hcond⟩
    refine ⟨r, hr, ?_⟩
    rcases hcond with hp | hrange
    · simp [ho, hp]
    · by_cases hp : r.protocol = "-1" <;> simp [ho, hp, hrange]

/-- C3: when the IAM provider's collection raises, the evaluator returns
exactly one synthetic finding with status ERROR, severity HIGH, the
provider sentinel id `IAM-SCANNER`, and a message containing the error
description; it never propagates the raw error (it is a total function
into finding lists), and the finding count contributed by the other
three providers is unchanged: the aggregated count is exactly their sum
plus one. -/
theorem claim_C3_iam_failure_isolation (e : String)
    (s3In : Except String (List S3BucketInfo))
    (ec2In : Except String (List EC2InstanceInfo × List SecurityGroupInfo))
    (rdsIn : Except String (List RDSInstanceInfo))
    (aggError : Option String) (persistenceFails : Bool) :
    scanIAM (Except.error e)
        = [{ resourceType := .IAM
             resourceId := "IAM-SCANNER"
             checkName := "IAM Scan"
             status := .ERROR
             severity := .HIGH
             message := "Error scanning IAM: " ++ e
             timestamp := none
             region := none }]
    ∧ (∃ pre, ("Error scanning IAM: " ++ e) = pre ++ e)
    ∧ (allFindings
          { s3In, ec2In, iamIn := Except.error e, rdsIn, aggError, persistenceFails }).length
        = (scanS3Buckets s3In).length + (scanEC2 ec2In).length
            + (scanRDS rdsIn).length + 1 := by
  refine ⟨rfl, ⟨"Error scanning IAM: ", rfl⟩, ?_⟩
  simp [allFindings, scanIAM]
  omega

theorem getPublicAccessBlock_isFullyBlocked
    (response : Except String (Option PABConfiguration)) :
    (getPublicAccessBlock response).isFullyBlocked
      = ((getPublicAccessBlock response).blockPublicAcls
          && (getPublicAccessBlock response).blockPublicPolicy
          && (getPublicAccessBlock response).ignorePublicAcls
          && (getPublicAccessBlock response).restrictPublicBuckets) := by
  rcases response with name | config
  · by_cases h : name == "NoSuchPublicAccessBlockConfiguration" <;>
      simp [getPublicAccessBlock, h]
  · rfl

/-- C9: for every bucket record whose public-access state was produced
by the collector, the public-access check yields PASS with severity LOW
iff all four public-access-block sub-flags are true, and yields FAIL
with severity HIGH as soon as any one flag is false. -/
theorem claim_C9_public_access_check
    (response : Except String (Option PABConfiguration))
    (name region : String) (creationDate : Option Nat)
    (encryption : EncryptionInfo) (versioning : VersioningInfo) :
    ((S3Scanner.checkPublicAccess
        { name, region, creationDate
          publicAccess := getPublicAccessBlock response, encryption, versioning }).status
          = CheckStatus.PASS
      ∧ (S3Scanner.checkPublicAccess
          { name, region, creationDate
            publicAccess := getPublicAccessBlock response, encryption, versioning }).severity
          = Severity.LOW
      ↔ (getPublicAccessBlock response).blockPublicAcls = true
          ∧ (getPublicAccessBlock response).blockPublicPolicy = true
          ∧ (getPublicAccessBlock response).ignorePublicAcls = true
          ∧ (getPublicAccessBlock response).restrictPublicBuckets = true)
    ∧ (((getPublicAccessBlock response).blockPublicAcls = false
          ∨ (getPublicAccessBlock response).blockPublicPolicy = false
          ∨ (getPublicAccessBlock response).ignorePublicAcls = false
          ∨ (getPublicAccessBlock response).restrictPublicBuckets = false)
        → (S3Scanner.checkPublicAccess
              { name, region, creationDate
                publicAccess := getPublicAccessBlock response, encryption
                versioning }).status = CheckStatus.FAIL
          ∧ (S3Scanner.checkPublicAccess
              { name, region, creationDate
                publicAccess := getPublicAccessBlock response, encryption
                versioning }).severity = Severity.HIGH) := by
  have hfb := getPublicAccessBlock_isFullyBlocked response
  by_cases h : (getPublicAccessBlock response).isFullyBlocked
  · rw [h] at hfb
    have hall := hfb.symm
    simp only [Bool.and_eq_true] at hall
    constructor
    · simp [S3Scanner.checkPublicAccess, h, hall.1.1.1, hall.1.1.2, hall.1.2, hall.2]
    · intro hany
      rcases hany with hf | hf | hf | hf <;>
        first
          | (rw [hall.1.1.1] at hf; cases hf)
          | (rw [hall.1.1.2] at hf; cases hf)
          | (rw [hall.1.2] at hf; cases hf)
          | (rw [hall.2] at hf; cases hf)
  · rw [Bool.not_eq_true] at h
    rw [h] at hfb
    constructor
    · constructor
      · intro hcontra
        have := hcontra.1
        simp [S3Scanner.checkPublicAccess, h] at this
      · intro hall
        rw [hall.1, hall.2.1, hall.2.2.1, hall.2.2.2] at hfb
        simp at hfb
    · intro _
      simp [S3Scanner.checkPublicAccess, h]

/-- Witness for C9: with no public-access-block configured, the check
fails with HIGH severity. -/
theorem claim_C9_witness :
    (S3Scanner.checkPublicAccess
        { name := "b", region := "eu-north-1", creationDate := none
          publicAccess := getPublicAccessBlock (Except.ok none)
          encryption := { enabled := false }
          versioning := { enabled := false, mfaDelete := false } }).status = CheckStatus.FAIL
    ∧ (S3Scanner.checkPublicAccess
        { name := "b", region := "eu-north-1", creationDate := none
          publicAccess := getPublicAccessBlock (Except.ok none)
          encryption := { enabled := false }
          versioning := { enabled := false, mfaDelete := false } }).severity = Severity.HIGH :=
  (claim_C9_public_access_check (Except.ok none) "b" "eu-north-1" none
      { enabled := false } { enabled := false, mfaDelete := false }).2
    (Or.inl rfl)

theorem s3_checkPublicAccess_pass_low (b : S3BucketInfo) :
    (S3Scanner.checkPublicAccess b).status = CheckStatus.PASS
      → (S3Scanner.checkPublicAccess b).severity = Severity.LOW := by
  by_cases h : b.publicAccess.isFullyBlocked <;> simp [S3Scanner.checkPublicAccess, h]

theorem s3_checkEncryption_pass_low (b : S3BucketInfo) :
    (S3Scanner.checkEncryption b).status = CheckStatus.PASS
      → (S3Scanner.checkEncryption b).severity = Severity.LOW := by
  by_cases h : b.encryption.enabled <;> simp [S3Scanner.checkEncryption, h]

theorem s3_checkVersioning_pass_low (b : S3BucketInfo) :
    (S3Scanner.checkVersioning b).status = CheckStatus.PASS
      → (S3Scanner.checkVersioning b).severity = Severity.LOW := by
  by_cases h : b.versioning.enabled <;> simp [S3Scanner.checkVersioning, h]

theorem ec2_checkSSHExposure_pass_low (sg : SecurityGroupInfo) :
    (EC2Scanner.checkSSHExposure sg).status = CheckStatus.PASS
      → (EC2Scanner.checkSSHExposure sg).severity = Severity.LOW := by
  by_cases h : sg.hasOpenSSH <;> simp [EC2Scanner.checkSSHExposure, h]

theorem ec2_checkRDPExposure_pass_low (sg : SecurityGroupInfo) :
    (EC2Scanner.checkRDPExposure sg).status = CheckStatus.PASS
      → (EC2Scanner.checkRDPExposure sg).severity = Severity.LOW := by
  by_cases h : sg.hasOpenRDP <;> simp [EC2Scanner.checkRDPExposure, h]

theorem ec2_checkOpenToWorld_pass_low (sg : SecurityGroupInfo) :
    (EC2Scanner.checkOpenToWorld sg).status = CheckStatus.PASS
      → (EC2Scanner.checkOpenToWorld sg).severity = Severity.LOW := by
  by_cases h : sg.hasOpenToWorld <;> simp [EC2Scanner.checkOpenToWorld, h]

theorem ec2_checkPublicIPExposure_pass_low (inst : EC2InstanceInfo) :
    (EC2Scanner.checkPublicIPExposure inst).status = CheckStatus.PASS
      → (EC2Scanner.checkPublicIPExposure inst).severity = Severity.LOW := by
  by_cases h : inst.hasPublicIp <;> simp [EC2Scanner.checkPublicIPExposure, h]

theorem iam_checkMFAEnabled_pass_low (u : IAMUserInfo) :
    (IAMScanner.checkMFAEnabled u).status = CheckStatus.PASS
      → (IAMScanner.checkMFAEnabled u).severity = Severity.LOW := by
  by_cases hc : u.hasConsoleAccess <;> by_cases hm : u.hasMFA <;>
    simp [IAMScanner.checkMFAEnabled, hc, hm]

theorem iam_checkAdminAccess_pass_low (u : IAMUserInfo) :
    (IAMScanner.checkAdminAccess u).status = CheckStatus.PASS
      → (IAMScanner.checkAdminAccess u).severity = Severity.LOW := by
  by_cases h : u.hasAdminAccess <;> simp [IAMScanner.checkAdminAccess, h]

theorem iam_checkRootMFA_pass_low (accountMFAEnabled : Bool) :
    (IAMScanner.checkRootMFA accountMFAEnabled).status = CheckStatus.PASS
      → (IAMScanner.checkRootMFA accountMFAEnabled).severity = Severity.LOW := by
  cases accountMFAEnabled <;> simp [IAMScanner.checkRootMFA]

theorem rds_checkPublicAccessibility_pass_low (db : RDSInstanceInfo) :
    (RDSScanner.checkPublicAccessibility db).status = CheckStatus.PASS
      → (RDSScanner.checkPublicAccessibility db).severity = Severity.LOW := by
  by_cases h : db.isPubliclyAccessible <;> simp [RDSScanner.checkPublicAccessibility, h]

theorem rds_checkEncryption_pass_low (db : RDSInstanceInfo) :
    (RDSScanner.checkEncryption db).status = CheckStatus.PASS
      → (RDSScanner.checkEncryption db).severity = Severity.LOW := by
  by_cases h : db.isEncrypted <;> simp [RDSScanner.checkEncryption, h]

theorem rds_checkBackupEnabled_pass_low (db : RDSInstanceInfo) :
    (RDSScanner.checkBackupEnabled db).status = CheckStatus.PASS
      → (RDSScanner.checkBackupEnabled db).severity = Severity.LOW := by
  by_cases h : db.hasBackupEnabled <;> simp [RDSScanner.checkBackupEnabled, h]

theorem rds_checkMultiAZ_pass_low (db : RDSInstanceInfo) :
    (RDSScanner.checkMultiAZ db).status = CheckStatus.PASS
      → (RDSScanner.checkMultiAZ db).severity = Severity.LOW := by
  by_cases h : db.multiAZ <;> simp [RDSScanner.checkMultiAZ, h]

theorem scanS3Buckets_pass_low (inp : Except String (List S3BucketInfo))
    (f : SecurityFinding) (hf : f ∈ scanS3Buckets inp)
    (hp : f.status = CheckStatus.PASS) : f.severity = Severity.LOW := by
  rcases inp with e | buckets
  · simp [scanS3Buckets] at hf
    rw [hf] at hp
    simp at hp
  · simp only [scanS3Buckets, List.mem_flatMap, List.mem_cons,
      List.mem_singleton, List.not_mem_nil] at hf
    rcases hf with ⟨b, _, rfl | rfl | rfl | hfalse⟩
    · exact s3_checkPublicAccess_pass_low b hp
    · exact s3_checkEncryption_pass_low b hp
    · exact s3_checkVersioning_pass_low b hp
    · cases hfalse

theorem scanEC2_pass_low
    (inp : Except String (List EC2InstanceInfo × List SecurityGroupInfo))
    (f : SecurityFinding) (hf : f ∈ scanEC2 inp)
    (hp : f.status = CheckStatus.PASS) : f.severity = Severity.LOW := by
  rcases inp with e | ⟨instances, securityGroups⟩
  · simp [scanEC2] at hf
    rw [hf] at hp
    simp at hp
  · simp only [scanEC2, List.mem_append, List.mem_flatMap, List.mem_cons,
      List.mem_singleton, List.not_mem_nil, List.mem_map, List.mem_filter] at hf
    rcases hf with ⟨sg, _, rfl | rfl | rfl | hfalse⟩ | ⟨inst, _, rfl⟩
    · exact ec2_checkSSHExposure_pass_low sg hp
    · exact ec2_checkRDPExposure_pass_low sg hp
    · exact ec2_checkOpenToWorld_pass_low sg hp
    · cases hfalse
    · exact ec2_checkPublicIPExposure_pass_low inst hp

theorem scanIAM_pass_low
    (inp : Except String (List IAMUserInfo × IAMAccountSummary))
    (f : SecurityFinding) (hf : f ∈ scanIAM inp)
    (hp : f.status = CheckStatus.PASS) : f.severity = Severity.LOW := by
  rcases inp with e | ⟨users, accountSummary⟩
  · simp [scanIAM] at hf
    rw [hf] at hp
    simp at hp
  · simp only [scanIAM, List.mem_cons, List.mem_flatMap,
      List.mem_singleton, List.not_mem_nil] at hf
    rcases hf with rfl | ⟨u, _, rfl | rfl | hfalse⟩
    · exact iam_checkRootMFA_pass_low accountSummary.accountMFAEnabled hp
    · exact iam_checkMFAEnabled_pass_low u hp
    · exact iam_checkAdminAccess_pass_low u hp
    · cases hfalse

theorem scanRDS_pass_low (inp : Except String (List RDSInstanceInfo))
    (f : SecurityFinding) (hf : f ∈ scanRDS inp)
    (hp : f.status = CheckStatus.PASS) : f.severity = Severity.LOW := by
  rcases inp with e | instances
  · simp [scanRDS] at hf
    rw [hf] at hp
    simp at hp
  · simp only [scanRDS, List.mem_flatMap, List.mem_cons,
      List.mem_singleton, List.not_mem_nil] at hf
    rcases hf with ⟨db, _, rfl | rfl | rfl | rfl | hfalse⟩
    · exact rds_checkPublicAccessibility_pass_low db hp
    · exact rds_checkEncryption_pass_low db hp
    · exact rds_checkBackupEnabled_pass_low db hp
    · exact rds_checkMultiAZ_pass_low db hp
    · cases hfalse

/-- C10: every finding produced by any check function of any of the four
scanners with status PASS carries severity LOW; no passing check is ever
MEDIUM, HIGH or CRITICAL. -/
theorem claim_C10_pass_implies_low
    (s3In : Except String (List S3BucketInfo))
    (ec2In : Except String (List EC2InstanceInfo × List SecurityGroupInfo))
    (iamIn : Except String (List IAMUserInfo × IAMAccountSummary))
    (rdsIn : Except String (List RDSInstanceInfo))
    (f : SecurityFinding)
    (hf : f ∈ scanS3Buckets s3In ++ scanEC2 ec2In ++ scanIAM iamIn ++ scanRDS rdsIn)
    (hp : f.status = CheckStatus.PASS) : f.severity = Severity.LOW := by
  rcases List.mem_append.mp hf with h3 | h4
  · rcases List.mem_append.mp h3 with h1 | h2
    · rcases List.mem_append.mp h1 with hs | he
      · exact scanS3Buckets_pass_low s3In f hs hp
      · exact scanEC2_pass_low ec2In f he hp
    · exact scanIAM_pass_low iamIn f h2 hp
  · exact scanRDS_pass_low rdsIn f h4 hp

def accountSummaryMFAOn : IAMAccountSummary :=
  { users := 0, groups := 0, roles := 0, policies := 0, mfaDevices := 1
    accountMFAEnabled := true }

/-- Witness for C10 at the passing root-MFA check. -/
theorem claim_C10_witness :
    (IAMScanner.checkRootMFA true).severity = Severity.LOW :=
  claim_C10_pass_implies_low (Except.ok []) (Except.ok ([], []))
    (Except.ok ([], accountSummaryMFAOn)) (Except.ok [])
    (IAMScanner.checkRootMFA true)
    (by simp [scanS3Buckets, scanEC2, scanIAM, scanRDS, accountSummaryMFAOn])
    rfl

/-- C2: `runFullScan` never raises: it is a total function into
`RunOutcome` (every execution yields a `ScanResult`); when the
aggregation phase raises, the returned result has status FAILED with
`endTime` set; `saveScanResult` is invoked exactly once regardless of
success or failure; and a persistence failure does not change the
returned result (nor raise: persistence is best-effort by
construction). -/
theorem claim_C2_runScan_contract (env : ScanEnv) (times : ScanTimes)
    (scanId : String) (store : Store) :
    (runFullScan env times scanId store).saveCalls = 1
    ∧ (∀ e, env.aggError = some e →
        (runFullScan env times scanId store).result.status = ScanStatus.failed
        ∧ (runFullScan env times scanId store).result.endTime = some times.endT)
    ∧ (∀ b, (runFullScan { env with persistenceFails := b } times scanId store).result
        = (runFullScan env times scanId store).result) := by
  refine ⟨rfl, ?_, ?_⟩
  · intro e he
    simp [runFullScan, he]
  · intro b
    cases env
    rfl

def envAggFails : ScanEnv :=
  { s3In := Except.ok [], ec2In := Except.ok ([], [])
    iamIn := Except.ok ([], accountSummaryMFAOn), rdsIn := Except.ok []
    aggError := some "summary computation failed" }

def timesW : ScanTimes := { startT := 1, stampT := 2, scanT := 3, endT := 4 }

/-- Witness for C2 on an execution whose aggregation phase raises. -/
theorem claim_C2_witness :
    (runFullScan envAggFails timesW "scan-w2" []).saveCalls = 1
    ∧ (runFullScan envAggFails timesW "scan-w2" []).result.status = ScanStatus.failed
    ∧ (runFullScan envAggFails timesW "scan-w2" []).result.endTime = some 4 :=
  ⟨(claim_C2_runScan_contract envAggFails timesW "scan-w2" []).1,
   ((claim_C2_runScan_contract envAggFails timesW "scan-w2" []).2.1
      "summary computation failed" rfl).1,
   ((claim_C2_runScan_contract envAggFails timesW "scan-w2" []).2.1
      "summary computation failed" rfl).2⟩

/-- C6: in every scan `runFullScan` completes, all findings carry the
same timestamp: the single clock read the orchestrator takes at the
moment aggregation completes. -/
theorem claim_C6_uniform_timestamp (env : ScanEnv) (times : ScanTimes)
    (scanId : String) (store : Store)
    (hc : (runFullScan env times scanId store).result.status = ScanStatus.completed) :
    ∀ f ∈ (runFullScan env times scanId store).result.findings,
      f.timestamp = some times.stampT := by
  intro f hf
  cases ha : env.aggError with
  | some e => simp [runFullScan, ha] at hc
  | none =>
    simp only [runFullScan, ha, List.mem_map] at hf
    rcases hf with ⟨g, _, rfl⟩
    rfl

def envOneError : ScanEnv :=
  { s3In := Except.ok [], ec2In := Except.ok ([], [])
    iamIn := Except.error "IAM listing failed", rdsIn := Except.ok [] }

/-- Witness for C6 on a completed scan with one (IAM-error) finding. -/
theorem claim_C6_witness :
    (runFullScan envOneError timesW "scan-w6" []).result.status = ScanStatus.completed
    ∧ ∀ f ∈ (runFullScan envOneError timesW "scan-w6" []).result.findings,
        f.timestamp = some 2 :=
  ⟨rfl, claim_C6_uniform_timestamp envOneError timesW "scan-w6" [] rfl⟩

/-! ### Correctness of the canonical date encoding -/

/-- Upper bound of the date range representable by the fixed-width
encoding (far beyond any scan timestamp, year ≈ 33658). -/
def dateBound : Nat := 10 ^ isoWidth

theorem charVal_digitChar : ∀ d < 10, charVal (digitChar d) = d := by decide

theorem digitChar_isDigit : ∀ d < 10, (digitChar d).isDigit = true := by decide

theorem digitChar_lt_iff :
    ∀ x < 10, ∀ y < 10, (digitChar x < digitChar y ↔ x < y) := by decide

theorem div_pow_lt_ten {w n : Nat} (h : n < 10 ^ (w + 1)) : n / 10 ^ w < 10 := by
  rw [Nat.div_lt_iff_lt_mul (Nat.pos_pow_of_pos w (by norm_num))]
  calc n < 10 ^ (w + 1) := h
    _ = 10 * 10 ^ w := by ring

theorem decodeDigits_padDigits (w : Nat) :
    ∀ acc n, n < 10 ^ w → decodeDigits acc (padDigits w n) = acc * 10 ^ w + n := by
  induction w with
  | zero =>
    intro acc n h
    have h0 : n = 0 := Nat.lt_one_iff.mp (by simpa using h)
    subst h0
    show acc = acc * 10 ^ 0 + 0
    simp
  | succ w ih =>
    intro acc n h
    have hdiv : n / 10 ^ w < 10 := div_pow_lt_ten h
    have hmod : n % 10 ^ w < 10 ^ w := Nat.mod_lt _ (Nat.pos_pow_of_pos w (by norm_num))
    show decodeDigits (acc * 10 + charVal (digitChar (n / 10 ^ w))) (padDigits w (n % 10 ^ w))
        = acc * 10 ^ (w + 1) + n
    rw [charVal_digitChar _ hdiv, ih _ _ hmod]
    calc (acc * 10 + n / 10 ^ w) * 10 ^ w + n % 10 ^ w
        = acc * (10 ^ w * 10) + (10 ^ w * (n / 10 ^ w) + n % 10 ^ w) := by ring
      _ = acc * (10 ^ w * 10) + n := by rw [Nat.div_add_mod]
      _ = acc * 10 ^ (w + 1) + n := by ring

theorem padDigits_all_isDigit (w : Nat) :
    ∀ n, n < 10 ^ w → (padDigits w n).all Char.isDigit = true := by
  induction w with
  | zero => intro n h; rfl
  | succ w ih =>
    intro n h
    have hdiv : n / 10 ^ w < 10 := div_pow_lt_ten h
    have hmod : n % 10 ^ w < 10 ^ w := Nat.mod_lt _ (Nat.pos_pow_of_pos w (by norm_num))
    show ((digitChar (n / 10 ^ w)) :: padDigits w (n % 10 ^ w)).all Char.isDigit = true
    rw [List.all_cons, digitChar_isDigit _ hdiv, ih _ hmod]
    rfl

theorem padDigits_ne_nil {w : Nat} (n : Nat) (h : 0 < w) : padDigits w n ≠ [] := by
  cases w with
  | zero => omega
  | succ w => simp [padDigits]

/-- The canonical serialization round-trips on the representable
range: no precision is lost. -/
theorem isoDecode_isoString (n : Nat) (h : n < dateBound) :
    isoDecode (isoString n) = some n := by
  have hw : n < 10 ^ isoWidth := h
  have hdata : (isoString n).data = padDigits isoWidth n := rfl
  have hcond : (isoString n).data ≠ [] ∧ (isoString n).data.all Char.isDigit = true := by
    rw [hdata]
    exact ⟨padDigits_ne_nil n (by norm_num [isoWidth]),
      padDigits_all_isDigit isoWidth n hw⟩
  unfold isoDecode
  rw [if_pos hcond, hdata, decodeDigits_padDigits isoWidth 0 n hw]
  simp

theorem decodeOptDate_map_isoString (t : Option Nat) (h : ∀ x ∈ t, x < dateBound) :
    decodeOptDate (t.map isoString) = some t := by
  cases t with
  | none => rfl
  | some x => simp [decodeOptDate, isoDecode_isoString x (h x rfl)]

theorem decodeStoredFinding_storedFindingOf (f : SecurityFinding)
    (h : ∀ x ∈ f.timestamp, x < dateBound) :
    decodeStoredFinding (storedFindingOf f) = some f := by
  unfold decodeStoredFinding storedFindingOf
  rw [decodeOptDate_map_isoString f.timestamp h]
  rfl

theorem mapM_decodeStoredFinding (fs : List SecurityFinding)
    (h : ∀ f ∈ fs, ∀ x ∈ f.timestamp, x < dateBound) :
    (fs.map storedFindingOf).mapM decodeStoredFinding = some fs := by
  induction fs with
  | nil => rfl
  | cons f rest ih =>
    simp only [List.map_cons, List.mapM_cons]
    rw [decodeStoredFinding_storedFindingOf f (h f (List.mem_cons_self f rest))]
    rw [ih (fun g hg => h g (List.mem_cons_of_mem f hg))]
    rfl

/-- All date fields of a scan result lie in the representable range of
the canonical encoding. -/
def BoundedDates (sr : ScanResult) : Prop :=
  sr.startTime < dateBound
  ∧ (∀ t ∈ sr.endTime, t < dateBound)
  ∧ sr.summary.scanTime < dateBound
  ∧ ∀ f ∈ sr.findings, ∀ t ∈ f.timestamp, t < dateBound

theorem getScanResult_putItem (store : Store) (item : StoredScan)
    (hres : item.resourceId = "METADATA") :
    getScanResult (putItem store item) item.scanId = some item := by
  unfold getScanResult putItem
  induction store with
  | nil => simp [hres]
  | cons it rest ih =>
    by_cases hkey : (it.scanId == item.scanId && it.resourceId == item.resourceId) = true
    · rw [List.filter_cons_of_neg (by simp [hkey])]
      exact ih
    · have hkey' : (it.scanId == item.scanId && it.resourceId == item.resourceId) = false := by
        cases hb : (it.scanId == item.scanId && it.resourceId == item.resourceId) with
        | true => exact absurd hb hkey
        | false => rfl
      rw [List.filter_cons_of_pos (by simp [hkey'])]
      rw [List.cons_append]
      rw [List.find?_cons_of_neg _ (by rw [← hres]; simp [hkey'])]
      exact ih

/-- C7: persisting a ScanResult and then retrieving it by its scanId
yields the stored item whose fields are, field for field, the original
data with every date serialized to the canonical string form; and
deserializing those date fields recovers the original ScanResult exactly
— no precision is lost.  (`BoundedDates` restricts timestamps to the
encoding's representable range, which extends far beyond the range the
platform's own ISO-8601 encoder accepts.) -/
theorem claim_C7_store_roundtrip (store : Store) (sr : ScanResult)
    (h : BoundedDates sr) :
    getScanResult (saveScanResult store false sr) sr.scanId = some (prepareForStorage sr)
    ∧ decodeStoredScan (prepareForStorage sr) = some sr := by
  obtain ⟨h1, h2, h3, h4⟩ := h
  constructor
  · exact getScanResult_putItem store (prepareForStorage sr) rfl
  · show decodeStoredScan (prepareForStorage sr) = some sr
    unfold decodeStoredScan
    show (isoDecode (isoString sr.startTime)).bind _ = some sr
    rw [isoDecode_isoString _ h1]
    show (decodeOptDate (sr.endTime.map isoString)).bind _ = some sr
    rw [decodeOptDate_map_isoString _ h2]
    show (isoDecode (isoString sr.summary.scanTime)).bind _ = some sr
    rw [isoDecode_isoString _ h3]
    show ((sr.findings.map storedFindingOf).mapM decodeStoredFinding).map _ = some sr
    rw [mapM_decodeStoredFinding _ h4]
    rfl

def srW : ScanResult :=
  { scanId := "scan-1700000000000-a1b2c3d"
    summary :=
      { totalResources := 1, passed := 0, failed := 0, errors := 1
        highSeverity := 0, criticalSeverity := 0, scanTime := 1700000000300 }
    findings :=
      [{ resourceType := .IAM
         resourceId := "IAM-SCANNER"
         checkName := "IAM Scan"
         status := .ERROR
         severity := .HIGH
         message := "Error scanning IAM: listing failed"
         timestamp := some 1700000000200
         region := none }]
    startTime := 1700000000000
    endTime := some 1700000000400
    status := .completed }

theorem srW_bounded : BoundedDates srW := by
  refine ⟨by norm_num [srW, dateBound, isoWidth], ?_, by norm_num [srW, dateBound, isoWidth], ?_⟩
  · intro t ht
    simp only [srW, Option.mem_def, Option.some_inj] at ht
    subst ht
    norm_num [dateBound, isoWidth]
  · intro f hf t ht
    simp only [srW, List.mem_singleton] at hf
    subst hf
    simp only [Option.mem_def, Option.some_inj] at ht
    subst ht
    norm_num [dateBound, isoWidth]

/-- Witness for C7 at a concrete completed scan result. -/
theorem claim_C7_witness :
    getScanResult (saveScanResult [] false srW) srW.scanId = some (prepareForStorage srW)
    ∧ decodeStoredScan (prepareForStorage srW) = some srW :=
  claim_C7_store_roundtrip [] srW srW_bounded

/-! ### The lexicographic string order used by the recency index -/

theorem lexLt_irrefl : ∀ l : List Char, lexLt l l = false := by
  intro l
  induction l with
  | nil => rfl
  | cons a as ih =>
    show (if a < a then true else if a < a then false else lexLt as as) = false
    rw [if_neg (lt_irrefl a), if_neg (lt_irrefl a)]
    exact ih

theorem lexLt_trans :
    ∀ a b c : List Char, lexLt a b = true → lexLt b c = true → lexLt a c = true := by
  intro a
  induction a with
  | nil =>
    intro b c h1 h2
    cases b with
    | nil => cases h1
    | cons y ys =>
      cases c with
      | nil => cases h2
      | cons z zs => rfl
  | cons x xs ih =>
    intro b c h1 h2
    cases b with
    | nil => cases h1
    | cons y ys =>
      cases c with
      | nil => cases h2
      | cons z zs =>
        show (if x < z then true else if z < x then false else lexLt xs zs) = true
        rw [show lexLt (x :: xs) (y :: ys)
            = (if x < y then true else if y < x then false else lexLt xs ys) from rfl] at h1
        rw [show lexLt (y :: ys) (z :: zs)
            = (if y < z then true else if z < y then false else lexLt ys zs) from rfl] at h2
        by_cases hxy : x < y
        · by_cases hyz : y < z
          · rw [if_pos (lt_trans hxy hyz)]
          · rw [if_neg hyz] at h2
            by_cases hzy : z < y
            · rw [if_pos hzy] at h2; cases h2
            · have hyz' : y = z := le_antisymm (not_lt.mp hzy) (not_lt.mp hyz)
              rw [if_pos (hyz' ▸ hxy)]
        · rw [if_neg hxy] at h1
          by_cases hyx : y < x
          · rw [if_pos hyx] at h1; cases h1
          · have hxy' : x = y := le_antisymm (not_lt.mp hyx) (not_lt.mp hxy)
            subst hxy'
            rw [if_neg hxy] at h1
            by_cases hyz : x < z
            · rw [if_pos hyz]
            · rw [if_neg hyz] at h2 ⊢
              by_cases hzy : z < x
              · rw [if_pos hzy] at h2; cases h2
              · rw [if_neg hzy] at h2 ⊢
                exact ih ys zs h1 h2

theorem lexLt_total :
    ∀ a b : List Char, lexLt a b = true ∨ a = b ∨ lexLt b a = true := by
  intro a
  induction a with
  | nil =>
    intro b
    cases b with
    | nil => exact Or.inr (Or.inl rfl)
    | cons y ys => exact Or.inl rfl
  | cons x xs ih =>
    intro b
    cases b with
    | nil => exact Or.inr (Or.inr rfl)
    | cons y ys =>
      rcases lt_trichotomy x y with hlt | heq | hgt
      · left
        show (if x < y then true else if y < x then false else lexLt xs ys) = true
        rw [if_pos hlt]
      · subst heq
        rcases ih ys with htail | htail | htail
        · left
          show (if x < x then true else if x < x then false else lexLt xs ys) = true
          rw [if_neg (lt_irrefl x), if_neg (lt_irrefl x)]
          exact htail
        · exact Or.inr (Or.inl (by rw [htail]))
        · right; right
          show (if x < x then true else if x < x then false else lexLt ys xs) = true
          rw [if_neg (lt_irrefl x), if_neg (lt_irrefl x)]
          exact htail
      · right; right
        show (if y < x then true else if x < y then false else lexLt ys xs) = true
        rw [if_pos hgt]

theorem lexLt_chain (a b c : List Char) (h : lexLt a c = true) :
    lexLt a b = true ∨ lexLt b c = true := by
  rcases lexLt_total a b with hab | hab | hab
  · exact Or.inl hab
  · subst hab; exact Or.inr h
  · exact Or.inr (lexLt_trans b a c hab h)

theorem lexLt_asymm (a b : List Char) (h : lexLt a b = true) : lexLt b a = false := by
  cases hba : lexLt b a with
  | false => rfl
  | true =>
    have := lexLt_trans a b a h hba
    rw [lexLt_irrefl a] at this
    cases this

/-- On the fixed-width encoding, the lexicographic order agrees with the
numeric (chronological) order. -/
theorem lexLt_padDigits (w : Nat) :
    ∀ a b, a < 10 ^ w → b < 10 ^ w →
      lexLt (padDigits w a) (padDigits w b) = decide (a < b) := by
  induction w with
  | zero =>
    intro a b ha hb
    have ha0 : a = 0 := Nat.lt_one_iff.mp (by simpa using ha)
    have hb0 : b = 0 := Nat.lt_one_iff.mp (by simpa using hb)
    subst ha0; subst hb0
    rfl
  | succ w ih =>
    intro a b ha hb
    have hda : a / 10 ^ w < 10 := div_pow_lt_ten ha
    have hdb : b / 10 ^ w < 10 := div_pow_lt_ten hb
    have hpow : 0 < 10 ^ w := Nat.pos_pow_of_pos w (by norm_num)
    have hma : a % 10 ^ w < 10 ^ w := Nat.mod_lt _ hpow
    have hmb : b % 10 ^ w < 10 ^ w := Nat.mod_lt _ hpow
    show (if digitChar (a / 10 ^ w) < digitChar (b / 10 ^ w) then true
          else if digitChar (b / 10 ^ w) < digitChar (a / 10 ^ w) then false
          else lexLt (padDigits w (a % 10 ^ w)) (padDigits w (b % 10 ^ w)))
        = decide (a < b)
    rcases lt_trichotomy (a / 10 ^ w) (b / 10 ^ w) with hlt | heq | hgt
    · rw [if_pos ((digitChar_lt_iff _ hda _ hdb).mpr hlt)]
      have hab : a < b := by
        by_contra hle
        push_neg at hle
        have hdd : b / 10 ^ w ≤ a / 10 ^ w := Nat.div_le_div_right (c := 10 ^ w) hle
        omega
      simp [hab]
    · have hnd : ¬ digitChar (a / 10 ^ w) < digitChar (b / 10 ^ w) := by
        rw [digitChar_lt_iff _ hda _ hdb]; omega
      have hnd' : ¬ digitChar (b / 10 ^ w) < digitChar (a / 10 ^ w) := by
        rw [digitChar_lt_iff _ hdb _ hda]; omega
      rw [if_neg hnd, if_neg hnd', ih _ _ hma hmb]
      have ha' : 10 ^ w * (a / 10 ^ w) + a % 10 ^ w = a := Nat.div_add_mod a (10 ^ w)
      have hb' : 10 ^ w * (a / 10 ^ w) + b % 10 ^ w = b := by
        rw [heq]; exact Nat.div_add_mod b (10 ^ w)
      rw [decide_eq_decide]
      omega
    · rw [if_neg (by rw [digitChar_lt_iff _ hda _ hdb]; omega)]
      rw [if_pos ((digitChar_lt_iff _ hdb _ hda).mpr hgt)]
      have hba : b < a := by
        by_contra hle
        push_neg at hle
        have hdd : a / 10 ^ w ≤ b / 10 ^ w := Nat.div_le_div_right (c := 10 ^ w) hle
        omega
      have : ¬ a < b := by omega
      simp [this]

theorem lexLt_isoString (a b : Nat) (ha : a < dateBound) (hb : b < dateBound) :
    lexLt (isoString a).data (isoString b).data = decide (a < b) :=
  lexLt_padDigits isoWidth a b ha hb

/-! ### The recency query -/

theorem latestStep_isSome (acc : Option StoredScan) (item : StoredScan) :
    (latestStep acc item).isSome = true := by
  cases acc with
  | none => rfl
  | some best =>
    show (if lexLt best.createdAt.data item.createdAt.data
          then some item else some best).isSome = true
    split <;> rfl

theorem foldl_latestStep_mem :
    ∀ (l : List StoredScan) (acc : Option StoredScan) (it : StoredScan),
      l.foldl latestStep acc = some it → it ∈ l ∨ acc = some it := by
  intro l
  induction l with
  | nil => intro acc it h; exact Or.inr h
  | cons x xs ih =>
    intro acc it h
    rcases ih (latestStep acc x) it h with hmem | hacc
    · exact Or.inl (List.mem_cons_of_mem x hmem)
    · cases acc with
      | none =>
        have hx : x = it := by simpa [latestStep] using hacc
        exact Or.inl (hx ▸ List.mem_cons_self x xs)
      | some best =>
        by_cases hb : lexLt best.createdAt.data x.createdAt.data
        · have hx : x = it := by simpa [latestStep, hb] using hacc
          exact Or.inl (hx ▸ List.mem_cons_self x xs)
        · have hx : best = it := by simpa [latestStep, hb] using hacc
          exact Or.inr (by rw [hx])

theorem foldl_latestStep_max :
    ∀ (l : List StoredScan) (acc : Option StoredScan) (it : StoredScan),
      l.foldl latestStep acc = some it →
      (∀ x ∈ l, lexLt it.createdAt.data x.createdAt.data = false)
      ∧ (∀ b, acc = some b → lexLt it.createdAt.data b.createdAt.data = false) := by
  intro l
  induction l with
  | nil =>
    intro acc it h
    refine ⟨by simp, ?_⟩
    intro b hb
    have h' : acc = some it := h
    rw [h'] at hb
    have hb' : it = b := Option.some_inj.mp hb
    rw [← hb']
    exact lexLt_irrefl _
  | cons x xs ih =>
    intro acc it h
    have hstep := ih (latestStep acc x) it h
    have hit_x : lexLt it.createdAt.data x.createdAt.data = false := by
      cases acc with
      | none => exact hstep.2 x rfl
      | some best =>
        by_cases hb : lexLt best.createdAt.data x.createdAt.data
        · exact hstep.2 x (by simp [latestStep, hb])
        · have hitbest : lexLt it.createdAt.data best.createdAt.data = false :=
            hstep.2 best (by simp [latestStep, hb])
          cases hc : lexLt it.createdAt.data x.createdAt.data with
          | false => rfl
          | true =>
            rcases lexLt_chain _ best.createdAt.data _ hc with h1 | h2
            · rw [hitbest] at h1; cases h1
            · exact absurd h2 hb
    refine ⟨?_, ?_⟩
    · intro y hy
      rcases List.mem_cons.mp hy with rfl | hmem
      · exact hit_x
      · exact hstep.1 y hmem
    · intro b hb
      by_cases hlt : lexLt b.createdAt.data x.createdAt.data
      · cases hc : lexLt it.createdAt.data b.createdAt.data with
        | false => rfl
        | true =>
          have := lexLt_trans _ _ _ hc hlt
          rw [hit_x] at this
          cases this
      · exact hstep.2 b (by rw [hb]; simp [latestStep, hlt])

/-- C8: the recency query (i) answers `none` on the empty store and
`some` after any successful save (absent only when nothing was
persisted); (ii) whenever it answers, the answer is a stored item that
is maximal in the recency index (`createdAt`, the serialized
`startTime`); (iii) after persisting two scans with startTime T1 < T2 —
whatever their terminal statuses, COMPLETED or FAILED — it returns the
T2 scan; and (iv) a startTime tie between distinct scans is broken by
insertion order. -/
theorem claim_C8_getLatest_recency :
    getLatestScanResult ([] : Store) = none
    ∧ (∀ (store : Store) (sr : ScanResult),
        (getLatestScanResult (saveScanResult store false sr)).isSome = true)
    ∧ (∀ (store : Store) (it : StoredScan), getLatestScanResult store = some it →
        it ∈ store ∧ ∀ other ∈ store, other.recordType = "SCAN" →
          lexLt it.createdAt.data other.createdAt.data = false)
    ∧ (∀ sr1 sr2 : ScanResult, sr1.startTime < sr2.startTime →
        sr2.startTime < dateBound →
        getLatestScanResult (saveScanResult (saveScanResult [] false sr1) false sr2)
          = some (prepareForStorage sr2))
    ∧ (∀ sr1 sr2 : ScanResult, sr1.startTime = sr2.startTime →
        (sr1.scanId == sr2.scanId) = false →
        getLatestScanResult (saveScanResult (saveScanResult [] false sr1) false sr2)
          = some (prepareForStorage sr1)) := by
  refine ⟨rfl, ?_, ?_, ?_, ?_⟩
  · intro store sr
    show (getLatestScanResult (putItem store (prepareForStorage sr))).isSome = true
    unfold getLatestScanResult putItem
    rw [List.filter_append, List.foldl_append]
    have hone : List.filter (fun it => it.recordType == "SCAN") [prepareForStorage sr]
        = [prepareForStorage sr] := by
      simp [prepareForStorage]
    rw [hone]
    show (latestStep _ (prepareForStorage sr)).isSome = true
    exact latestStep_isSome _ _
  · intro store it h
    unfold getLatestScanResult at h
    have hmem := foldl_latestStep_mem _ none it h
    rcases hmem with hmem | hcontra
    · refine ⟨List.mem_of_mem_filter hmem, ?_⟩
      intro other hother hscan
      have hofilter : other ∈ List.filter (fun it => it.recordType == "SCAN") store :=
        List.mem_filter.mpr ⟨hother, by simp [hscan]⟩
      exact (foldl_latestStep_max _ none it h).1 other hofilter
    · cases hcontra
  · intro sr1 sr2 h12 hb2
    have hb1 : sr1.startTime < dateBound := lt_trans h12 hb2
    by_cases hsid : (sr1.scanId == sr2.scanId) = true
    · have hstore : saveScanResult (saveScanResult [] false sr1) false sr2
          = [prepareForStorage sr2] := by
        show putItem (putItem [] (prepareForStorage sr1)) (prepareForStorage sr2) = _
        unfold putItem
        simp [prepareForStorage, hsid]
      rw [hstore]
      unfold getLatestScanResult
      have hf : List.filter (fun it => it.recordType == "SCAN") [prepareForStorage sr2]
          = [prepareForStorage sr2] := by simp [prepareForStorage]
      rw [hf]
      rfl
    · have hsid' : (sr1.scanId == sr2.scanId) = false := by
        cases hx : (sr1.scanId == sr2.scanId) with
        | true => exact absurd hx hsid
        | false => rfl
      have hstore : saveScanResult (saveScanResult [] false sr1) false sr2
          = [prepareForStorage sr1, prepareForStorage sr2] := by
        show putItem (putItem [] (prepareForStorage sr1)) (prepareForStorage sr2) = _
        unfold putItem
        simp [prepareForStorage, hsid']
      rw [hstore]
      unfold getLatestScanResult
      have hf : List.filter (fun it => it.recordType == "SCAN")
          [prepareForStorage sr1, prepareForStorage sr2]
          = [prepareForStorage sr1, prepareForStorage sr2] := by simp [prepareForStorage]
      rw [hf]
      show latestStep (latestStep none (prepareForStorage sr1)) (prepareForStorage sr2)
          = some (prepareForStorage sr2)
      show (if lexLt (prepareForStorage sr1).createdAt.data
              (prepareForStorage sr2).createdAt.data
            then some (prepareForStorage sr2) else some (prepareForStorage sr1))
          = some (prepareForStorage sr2)
      rw [show (prepareForStorage sr1).createdAt = isoString sr1.startTime from rfl]
      rw [show (prepareForStorage sr2).createdAt = isoString sr2.startTime from rfl]
      rw [lexLt_isoString _ _ hb1 hb2]
      simp [h12]
  · intro sr1 sr2 heq hsid
    have hstore : saveScanResult (saveScanResult [] false sr1) false sr2
        = [prepareForStorage sr1, prepareForStorage sr2] := by
      show putItem (putItem [] (prepareForStorage sr1)) (prepareForStorage sr2) = _
      unfold putItem
      simp [prepareForStorage, hsid]
    rw [hstore]
    unfold getLatestScanResult
    have hf : List.filter (fun it => it.recordType == "SCAN")
        [prepareForStorage sr1, prepareForStorage sr2]
        = [prepareForStorage sr1, prepareForStorage sr2] := by simp [prepareForStorage]
    rw [hf]
    show latestStep (latestStep none (prepareForStorage sr1)) (prepareForStorage sr2)
        = some (prepareForStorage sr1)
    show (if lexLt (prepareForStorage sr1).createdAt.data
            (prepareForStorage sr2).createdAt.data
          then some (prepareForStorage sr2) else some (prepareForStorage sr1))
        = some (prepareForStorage sr1)
    rw [show (prepareForStorage sr1).createdAt = isoString sr1.startTime from rfl]
    rw [show (prepareForStorage sr2).createdAt = isoString sr2.startTime from rfl]
    rw [heq, lexLt_irrefl]
    rfl

def srEarly : ScanResult :=
  { scanId := "scan-1700000000000-aaaaaaa"
    summary :=
      { totalResources := 0, passed := 0, failed := 0, errors := 0
        highSeverity := 0, criticalSeverity := 0, scanTime := 1700000000000 }
    findings := []
    startTime := 1700000000000
    endTime := some 1700000000050
    status := .failed }

def srLate : ScanResult :=
  { scanId := "scan-1700000100000-bbbbbbb"
    summary :=
      { totalResources := 0, passed := 0, failed := 0, errors := 0
        highSeverity := 0, criticalSeverity := 0, scanTime := 1700000100000 }
    findings := []
    startTime := 1700000100000
    endTime := some 1700000100050
    status := .completed }

/-- Witness for C8: after persisting a FAILED scan started at T1 and a
COMPLETED scan started at T2 > T1, the recency query returns the latter. -/
theorem claim_C8_witness :
    getLatestScanResult (saveScanResult (saveScanResult [] false srEarly) false srLate)
      = some (prepareForStorage srLate) :=
  claim_C8_getLatest_recency.2.2.2.1 srEarly srLate
    (by norm_num [srEarly, srLate])
    (by norm_num [srLate, dateBound, isoWidth])

end CloudScanner
